import Mathlib

/-!
Verification of the resmoke suite-configuration module
(`src/resmoke/resmoke_suite.rs`).

The Rust module defines a typed model of a resmoke suite YAML document
(`ResmokeSuiteConfig` with its `ResmokeSelector`, `ResmokeExecutor` and the
untagged `TestRoot` enum), serde-based parsing/serialization, and the pure
derivation operation `with_new_tests`.

Embedding choices:
* Parsing and serialization are modelled at the YAML *document value* level
  (mappings, sequences, scalars), since the spec fixes semantic equality of
  documents ("key ordering and formatting may differ") and treats the
  YAML-text grammar as an external collaborator.  A YAML value is the `Yaml`
  inductive below.
* Rust `f64` scalars are modelled as `Rat` (YAML decimal scalars; the module
  performs no arithmetic on them), `usize` as `Nat`.
* Rust `HashSet<String>` is modelled as `List String` holding the set's
  iteration order; the module never performs set operations on it.
* The serde-derive generated (de)serialization code is not part of the
  source file (only the attributes `skip_serializing_if`, `flatten`,
  `untagged` are); those functions are modelled from the spec, as marked.
-/

/-- A YAML document value: scalars, sequences and (string-keyed) mappings. -/
inductive Yaml where
  | null : Yaml
  | bool (b : Bool) : Yaml
  | int (n : Int) : Yaml
  | float (q : Rat) : Yaml
  | str (s : String) : Yaml
  | seq (xs : List Yaml) : Yaml
  | map (es : List (String × Yaml)) : Yaml

/-- Test roots of a suite: either the path of a file listing the root tests
(`Root`, serialized under the key `root`) or a literal list of root tests
(`Roots`, serialized under the key `roots`).  Embeds the Rust untagged enum
`TestRoot`. -/
inductive TestRoot where
  | Root (root : String) : TestRoot
  | Roots (roots : List String) : TestRoot
deriving DecidableEq

/-- Embeds `ResmokeSelector`: which tests are chosen for a suite.  Every
field is independently optional. -/
structure ResmokeSelector where
  exclude_tags : Option String
  exclude_files : Option (List String)
  exclude_with_any_tags : Option (List String)
  group_size : Option Nat
  group_count_multiplier : Option Rat
  include_with_any_tags : Option (List String)
  include_files : Option (List String)
  include_tags : Option String
  test_root : Option TestRoot
  tag_file : Option String
  test : Option String
deriving DecidableEq

/-- Embeds `ResmokeExecutor`: opaque pass-through configuration values. -/
structure ResmokeExecutor where
  archive : Option Yaml
  hooks : Option (List Yaml)
  config : Option Yaml
  fixture : Option Yaml

/-- Embeds `ResmokeSuiteConfig`: the top-level suite configuration. -/
structure ResmokeSuiteConfig where
  matrix_suite : Option Bool
  description : Option String
  test_kind : String
  selector : ResmokeSelector
  executor : ResmokeExecutor

/-- Embeds `ResmokeSuiteConfig::with_new_tests`: derive a new configuration
from this one, targeting different tests.  When `exclude_tests` is provided
its entries are appended to the selector's `exclude_files`; otherwise, when
`run_tests` is provided, `exclude_files` is cleared and `test_root` becomes
`Roots run_tests`; otherwise the configuration is returned unchanged. -/
def ResmokeSuiteConfig.with_new_tests (c : ResmokeSuiteConfig)
    (run_tests : Option (List String)) (exclude_tests : Option (List String)) :
    ResmokeSuiteConfig :=
  let updated_selector : ResmokeSelector :=
    match exclude_tests with
    | some ex =>
        let files_to_exclude := (match c.selector.exclude_files with
          | some excluded_files => excluded_files
          | none => []) ++ ex
        { c.selector with exclude_files := some files_to_exclude }
    | none =>
        match run_tests with
        | some run => { c.selector with
            exclude_files := none,
            test_root := some (TestRoot.Roots run) }
        | none => c.selector
  { c with selector := updated_selector }

/-! ### Serialization and parsing, at the YAML document-value level

The Rust source derives `Serialize`/`Deserialize` with the attributes
`#[serde(skip_serializing_if = "Option::is_none")]` on every optional
field, `#[serde(flatten, skip_serializing_if = "Option::is_none")]` on
`ResmokeSelector.test_root`, and `#[serde(untagged)]` on `TestRoot`.
The generated code itself is not part of the source file, so the functions
below are modelled from the spec, faithful to those attributes. -/

/-- The parse error returned for malformed input (the Rust `serde_yaml::Error`
carried by `ResmokeSuiteConfig::from_str`). -/
structure ParseError where
  msg : String
deriving DecidableEq

/-- Key lookup in a YAML mapping's entry list (first occurrence wins). -/
def findKey (k : String) : List (String × Yaml) → Option Yaml
  | [] => none
  | (k2, v) :: rest => if k = k2 then some v else findKey k rest

/-- Modelled from the spec: an optional field serializes to one mapping entry
when set and to no entry when unset (`skip_serializing_if = "Option::is_none"`). -/
def optField (k : String) : Option Yaml → List (String × Yaml)
  | none => []
  | some v => [(k, v)]

/-- A list of strings as a YAML sequence of string scalars. -/
def strList (xs : List String) : Yaml := Yaml.seq (xs.map Yaml.str)

/-- Modelled from the spec: the mapping entries of a serialized `TestRoot`
(untagged: the variant is encoded purely by which key appears). -/
def TestRoot.toFields : TestRoot → List (String × Yaml)
  | TestRoot.Root root => [("root", Yaml.str root)]
  | TestRoot.Roots roots => [("roots", strList roots)]

/-- The mapping entries contributed by the flattened optional `test_root`
field: none when absent, the variant's entries when present. -/
def testRootFields : Option TestRoot → List (String × Yaml)
  | none => []
  | some tr => tr.toFields

/-- Modelled from the spec: serialization of a `ResmokeSelector` as the entry
list of a YAML mapping, each optional field emitted only when set and
`test_root` flattened to the same structural level. -/
def ResmokeSelector.toFields (s : ResmokeSelector) : List (String × Yaml) :=
  optField "exclude_tags" (s.exclude_tags.map Yaml.str) ++
    (optField "exclude_files" (s.exclude_files.map strList) ++
    (optField "exclude_with_any_tags" (s.exclude_with_any_tags.map strList) ++
    (optField "group_size" (s.group_size.map (fun n => Yaml.int (Int.ofNat n))) ++
    (optField "group_count_multiplier" (s.group_count_multiplier.map Yaml.float) ++
    (optField "include_with_any_tags" (s.include_with_any_tags.map strList) ++
    (optField "include_files" (s.include_files.map strList) ++
    (optField "include_tags" (s.include_tags.map Yaml.str) ++
    (testRootFields s.test_root ++
    (optField "tag_file" (s.tag_file.map Yaml.str) ++
    (optField "test" (s.test.map Yaml.str) ++ ([] : List (String × Yaml))))))))))))

/-- Modelled from the spec: serialization of a `ResmokeExecutor` (opaque
pass-through values, emitted verbatim when set). -/
def ResmokeExecutor.toFields (e : ResmokeExecutor) : List (String × Yaml) :=
  optField "archive" e.archive ++
    (optField "hooks" (e.hooks.map Yaml.seq) ++
    (optField "config" e.config ++
    (optField "fixture" e.fixture ++ ([] : List (String × Yaml)))))

/-- Modelled from the spec: the mapping entries of a serialized suite
configuration — optional fields emitted only when set, the required
`test_kind`, `selector` and `executor` always emitted. -/
def ResmokeSuiteConfig.topFields (c : ResmokeSuiteConfig) : List (String × Yaml) :=
  optField "matrix_suite" (c.matrix_suite.map Yaml.bool) ++
    (optField "description" (c.description.map Yaml.str) ++
    (("test_kind", Yaml.str c.test_kind) ::
      ("selector", Yaml.map c.selector.toFields) ::
      ("executor", Yaml.map c.executor.toFields) :: []))

/-- Modelled from the spec: `Serialize(SuiteConfig) → document` — the YAML
document emitted for a suite configuration, omitting unset optional fields
(the value-level content of `ResmokeSuiteConfig::to_string`). -/
def ResmokeSuiteConfig.toYaml (c : ResmokeSuiteConfig) : Yaml :=
  Yaml.map c.topFields

/-- Decode a YAML string scalar. -/
def decodeStr : Yaml → Except ParseError String
  | Yaml.str s => Except.ok s
  | _ => Except.error ⟨"invalid type: expected a string"⟩

/-- Decode a YAML boolean scalar. -/
def decodeBool : Yaml → Except ParseError Bool
  | Yaml.bool b => Except.ok b
  | _ => Except.error ⟨"invalid type: expected a boolean"⟩

/-- Decode a YAML integer scalar into a `usize` (nonnegative) value. -/
def decodeNat : Yaml → Except ParseError Nat
  | Yaml.int n =>
      if 0 ≤ n then Except.ok n.toNat
      else Except.error ⟨"invalid value: negative integer for usize"⟩
  | _ => Except.error ⟨"invalid type: expected an integer"⟩

/-- Decode a YAML numeric scalar into an `f64` (modelled as `Rat`) value. -/
def decodeNum : Yaml → Except ParseError Rat
  | Yaml.float q => Except.ok q
  | Yaml.int n => Except.ok (n : Rat)
  | _ => Except.error ⟨"invalid type: expected a number"⟩

/-- Decode a list of YAML values as strings. -/
def decodeStrs : List Yaml → Except ParseError (List String)
  | [] => Except.ok []
  | y :: ys => do
      let s ← decodeStr y
      let rest ← decodeStrs ys
      Except.ok (s :: rest)

/-- Decode a YAML sequence of string scalars. -/
def decodeStrList : Yaml → Except ParseError (List String)
  | Yaml.seq xs => decodeStrs xs
  | _ => Except.error ⟨"invalid type: expected a sequence"⟩

/-- Decode a YAML sequence of arbitrary values. -/
def decodeSeq : Yaml → Except ParseError (List Yaml)
  | Yaml.seq xs => Except.ok xs
  | _ => Except.error ⟨"invalid type: expected a sequence"⟩

/-- Decode an optional field: absent key means `none`, a present key must
decode with the field's decoder. -/
def optDecode {α : Type} (d : Yaml → Except ParseError α) (k : String)
    (fs : List (String × Yaml)) : Except ParseError (Option α) :=
  match findKey k fs with
  | none => Except.ok none
  | some v => Except.map some (d v)

/-- Look up a required field, failing when the key is absent. -/
def reqKey (k : String) (fs : List (String × Yaml)) : Except ParseError Yaml :=
  match findKey k fs with
  | none => Except.error ⟨"missing field " ++ k⟩
  | some v => Except.ok v

/-- Modelled from the spec: decoding of the flattened optional untagged
`test_root`.  The `Root` variant is attempted first (it succeeds when the
`root` key holds a string), then the `Roots` variant (the `roots` key holds a
sequence of strings); when neither key appears at all the field is absent;
when a key appears but neither variant matches, decoding fails. -/
def parseTestRoot (fs : List (String × Yaml)) : Except ParseError (Option TestRoot) :=
  match findKey "root" fs, findKey "roots" fs with
  | some (Yaml.str r), _ => Except.ok (some (TestRoot.Root r))
  | _, some v =>
      match decodeStrList v with
      | Except.ok rs => Except.ok (some (TestRoot.Roots rs))
      | Except.error _ =>
          Except.error ⟨"data did not match any variant of untagged enum TestRoot"⟩
  | some _, none =>
      Except.error ⟨"data did not match any variant of untagged enum TestRoot"⟩
  | none, none => Except.ok none

/-- Modelled from the spec: decoding of a `ResmokeSelector` from a YAML value,
which must be a mapping; every field is optional. -/
def parseSelector (y : Yaml) : Except ParseError ResmokeSelector :=
  match y with
  | Yaml.map fs => do
      let exclude_tags ← optDecode decodeStr "exclude_tags" fs
      let exclude_files ← optDecode decodeStrList "exclude_files" fs
      let exclude_with_any_tags ← optDecode decodeStrList "exclude_with_any_tags" fs
      let group_size ← optDecode decodeNat "group_size" fs
      let group_count_multiplier ← optDecode decodeNum "group_count_multiplier" fs
      let include_with_any_tags ← optDecode decodeStrList "include_with_any_tags" fs
      let include_files ← optDecode decodeStrList "include_files" fs
      let include_tags ← optDecode decodeStr "include_tags" fs
      let test_root ← parseTestRoot fs
      let tag_file ← optDecode decodeStr "tag_file" fs
      let test ← optDecode decodeStr "test" fs
      Except.ok ⟨exclude_tags, exclude_files, exclude_with_any_tags, group_size,
        group_count_multiplier, include_with_any_tags, include_files,
        include_tags, test_root, tag_file, test⟩
  | _ => Except.error ⟨"selector: invalid type, expected a mapping"⟩

/-- Modelled from the spec: decoding of a `ResmokeExecutor` from a YAML value,
which must be a mapping; the pass-through values are kept verbatim. -/
def parseExecutor (y : Yaml) : Except ParseError ResmokeExecutor :=
  match y with
  | Yaml.map fs => do
      let hooks ← optDecode decodeSeq "hooks" fs
      Except.ok ⟨findKey "archive" fs, hooks, findKey "config" fs, findKey "fixture" fs⟩
  | _ => Except.error ⟨"executor: invalid type, expected a mapping"⟩

/-- Modelled from the spec: `Parse(text) → SuiteConfig | ParseError` at the
document-value level (the decoding half of `ResmokeSuiteConfig::from_str`;
the YAML text grammar is the external collaborator).  `test_kind`, `selector`
and `executor` are required, `matrix_suite` and `description` optional. -/
def ResmokeSuiteConfig.from_yaml (y : Yaml) : Except ParseError ResmokeSuiteConfig :=
  match y with
  | Yaml.map fs => do
      let matrix_suite ← optDecode decodeBool "matrix_suite" fs
      let description ← optDecode decodeStr "description" fs
      let test_kind ← decodeStr (← reqKey "test_kind" fs)
      let selector ← parseSelector (← reqKey "selector" fs)
      let executor ← parseExecutor (← reqKey "executor" fs)
      Except.ok ⟨matrix_suite, description, test_kind, selector, executor⟩
  | _ => Except.error ⟨"invalid type, expected a mapping"⟩

/-- Modelled from the spec: the result shape of `ResmokeSuiteConfig::to_string`
before its `unwrap` — the spec states that serialization always succeeds for
any value constructed through this model, so the document-level serializer is
total and the failure branch never fires. -/
def ResmokeSuiteConfig.serializeResult (c : ResmokeSuiteConfig) :
    Except ParseError Yaml :=
  Except.ok c.toYaml

/-- A concrete suite configuration with every optional field unset, used to
instantiate hypothesis-bearing theorems. -/
def sampleConfig : ResmokeSuiteConfig :=
  { matrix_suite := none
    description := none
    test_kind := "js_test"
    selector :=
      { exclude_tags := none
        exclude_files := none
        exclude_with_any_tags := none
        group_size := none
        group_count_multiplier := none
        include_with_any_tags := none
        include_files := none
        include_tags := none
        test_root := none
        tag_file := none
        test := none }
    executor :=
      { archive := none
        hooks := none
        config := none
        fixture := none } }

/-- A malformed document: the required `test_kind` key is missing. -/
def badDocMissingTestKind : Yaml :=
  Yaml.map [("selector", Yaml.map []), ("executor", Yaml.map [])]

/-- A malformed document: `selector` is present but holds a scalar, not a
mapping. -/
def badDocSelectorScalar : Yaml :=
  Yaml.map [("test_kind", Yaml.str "js_test"),
    ("selector", Yaml.str "oops"), ("executor", Yaml.map [])]

/-- C1: in exclude mode, the derived selector's `exclude_files` is the
original entries (or nothing, when absent) followed by every entry of
`exclude_tests`, in order and without deduplication. -/
theorem with_new_tests_exclude_mode_appends
    (c : ResmokeSuiteConfig) (run_tests : Option (List String))
    (ex : List String) :
    (c.with_new_tests run_tests (some ex)).selector.exclude_files =
      some ((match c.selector.exclude_files with
        | some old => old
        | none => []) ++ ex) := by
  cases h : c.selector.exclude_files <;>
    simp [ResmokeSuiteConfig.with_new_tests, h]

/-- C3: exclude mode takes strict precedence: when both lists are provided
the result equals the one obtained with the run list absent. -/
theorem with_new_tests_exclude_precedence
    (c : ResmokeSuiteConfig) (run : List String) (ex : List String) :
    c.with_new_tests (some run) (some ex) = c.with_new_tests none (some ex) :=
  rfl

/-! ### Helper lemmas about key lookup in serialized documents -/

theorem findKey_nil (k : String) : findKey k [] = none := rfl

theorem findKey_cons_self (k : String) (v : Yaml) (rest : List (String × Yaml)) :
    findKey k ((k, v) :: rest) = some v := by
  simp [findKey]

theorem findKey_cons_ne {k k2 : String} (h : k ≠ k2) (v : Yaml)
    (rest : List (String × Yaml)) :
    findKey k ((k2, v) :: rest) = findKey k rest := by
  simp [findKey, h]

theorem findKey_optField_some (k : String) (v : Yaml) (rest : List (String × Yaml)) :
    findKey k (optField k (some v) ++ rest) = some v := by
  simp [optField, findKey]

theorem findKey_optField_none (k k2 : String) (rest : List (String × Yaml)) :
    findKey k (optField k2 none ++ rest) = findKey k rest := rfl

theorem findKey_optField_ne {k k2 : String} (h : k ≠ k2) (v : Option Yaml)
    (rest : List (String × Yaml)) :
    findKey k (optField k2 v ++ rest) = findKey k rest := by
  cases v <;> simp [optField, findKey, h]

theorem findKey_testRootFields_ne {k : String} (h1 : k ≠ "root") (h2 : k ≠ "roots")
    (tro : Option TestRoot) (rest : List (String × Yaml)) :
    findKey k (testRootFields tro ++ rest) = findKey k rest := by
  cases tro with
  | none => rfl
  | some tr => cases tr <;> simp [testRootFields, TestRoot.toFields, findKey, h1, h2]

theorem sel_findKey_exclude_tags (s : ResmokeSelector) :
    findKey "exclude_tags" s.toFields = s.exclude_tags.map Yaml.str := by
  cases h : s.exclude_tags <;>
    simp (disch := decide) only [ResmokeSelector.toFields, h, Option.map_some',
      Option.map_none', findKey_optField_some, findKey_optField_none,
      findKey_optField_ne, findKey_testRootFields_ne, findKey_nil]

theorem sel_findKey_exclude_files (s : ResmokeSelector) :
    findKey "exclude_files" s.toFields = s.exclude_files.map strList := by
  cases h : s.exclude_files <;>
    simp (disch := decide) only [ResmokeSelector.toFields, h, Option.map_some',
      Option.map_none', findKey_optField_some, findKey_optField_none,
      findKey_optField_ne, findKey_testRootFields_ne, findKey_nil]

theorem sel_findKey_exclude_with_any_tags (s : ResmokeSelector) :
    findKey "exclude_with_any_tags" s.toFields =
      s.exclude_with_any_tags.map strList := by
  cases h : s.exclude_with_any_tags <;>
    simp (disch := decide) only [ResmokeSelector.toFields, h, Option.map_some',
      Option.map_none', findKey_optField_some, findKey_optField_none,
      findKey_optField_ne, findKey_testRootFields_ne, findKey_nil]

theorem sel_findKey_group_size (s : ResmokeSelector) :
    findKey "group_size" s.toFields =
      s.group_size.map (fun n => Yaml.int (Int.ofNat n)) := by
  cases h : s.group_size <;>
    simp (disch := decide) only [ResmokeSelector.toFields, h, Option.map_some',
      Option.map_none', findKey_optField_some, findKey_optField_none,
      findKey_optField_ne, findKey_testRootFields_ne, findKey_nil]

theorem sel_findKey_group_count_multiplier (s : ResmokeSelector) :
    findKey "group_count_multiplier" s.toFields =
      s.group_count_multiplier.map Yaml.float := by
  cases h : s.group_count_multiplier <;>
    simp (disch := decide) only [ResmokeSelector.toFields, h, Option.map_some',
      Option.map_none', findKey_optField_some, findKey_optField_none,
      findKey_optField_ne, findKey_testRootFields_ne, findKey_nil]

theorem sel_findKey_include_with_any_tags (s : ResmokeSelector) :
    findKey "include_with_any_tags" s.toFields =
      s.include_with_any_tags.map strList := by
  cases h : s.include_with_any_tags <;>
    simp (disch := decide) only [ResmokeSelector.toFields, h, Option.map_some',
      Option.map_none', findKey_optField_some, findKey_optField_none,
      findKey_optField_ne, findKey_testRootFields_ne, findKey_nil]

theorem sel_findKey_include_files (s : ResmokeSelector) :
    findKey "include_files" s.toFields = s.include_files.map strList := by
  cases h : s.include_files <;>
    simp (disch := decide) only [ResmokeSelector.toFields, h, Option.map_some',
      Option.map_none', findKey_optField_some, findKey_optField_none,
      findKey_optField_ne, findKey_testRootFields_ne, findKey_nil]

theorem sel_findKey_include_tags (s : ResmokeSelector) :
    findKey "include_tags" s.toFields = s.include_tags.map Yaml.str := by
  cases h : s.include_tags <;>
    simp (disch := decide) only [ResmokeSelector.toFields, h, Option.map_some',
      Option.map_none', findKey_optField_some, findKey_optField_none,
      findKey_optField_ne, findKey_testRootFields_ne, findKey_nil]

theorem sel_findKey_tag_file (s : ResmokeSelector) :
    findKey "tag_file" s.toFields = s.tag_file.map Yaml.str := by
  cases h : s.tag_file <;>
    simp (disch := decide) only [ResmokeSelector.toFields, h, Option.map_some',
      Option.map_none', findKey_optField_some, findKey_optField_none,
      findKey_optField_ne, findKey_testRootFields_ne, findKey_nil]

theorem sel_findKey_test (s : ResmokeSelector) :
    findKey "test" s.toFields = s.test.map Yaml.str := by
  cases h : s.test <;>
    simp (disch := decide) only [ResmokeSelector.toFields, h, Option.map_some',
      Option.map_none', findKey_optField_some, findKey_optField_none,
      findKey_optField_ne, findKey_testRootFields_ne, findKey_nil]

theorem sel_findKey_root (s : ResmokeSelector) :
    findKey "root" s.toFields =
      (match s.test_root with
        | some (TestRoot.Root r) => some (Yaml.str r)
        | _ => none) := by
  cases h : s.test_root with
  | none =>
      simp (disch := decide) only [ResmokeSelector.toFields, h, testRootFields,
        List.nil_append, findKey_optField_none, findKey_optField_ne, findKey_nil]
  | some tr =>
      cases tr <;>
        simp (disch := decide) only [ResmokeSelector.toFields, h, testRootFields,
          TestRoot.toFields, List.singleton_append, findKey_cons_self,
          findKey_cons_ne, findKey_optField_none, findKey_optField_ne, findKey_nil]

theorem sel_findKey_roots (s : ResmokeSelector) :
    findKey "roots" s.toFields =
      (match s.test_root with
        | some (TestRoot.Roots rs) => some (strList rs)
        | _ => none) := by
  cases h : s.test_root with
  | none =>
      simp (disch := decide) only [ResmokeSelector.toFields, h, testRootFields,
        List.nil_append, findKey_optField_none, findKey_optField_ne, findKey_nil]
  | some tr =>
      cases tr <;>
        simp (disch := decide) only [ResmokeSelector.toFields, h, testRootFields,
          TestRoot.toFields, List.singleton_append, findKey_cons_self,
          findKey_cons_ne, findKey_optField_none, findKey_optField_ne, findKey_nil]

theorem exec_findKey_archive (e : ResmokeExecutor) :
    findKey "archive" e.toFields = e.archive := by
  cases h : e.archive <;>
    simp (disch := decide) only [ResmokeExecutor.toFields, h,
      findKey_optField_some, findKey_optField_none, findKey_optField_ne,
      findKey_nil]

theorem exec_findKey_hooks (e : ResmokeExecutor) :
    findKey "hooks" e.toFields = e.hooks.map Yaml.seq := by
  cases h : e.hooks <;>
    simp (disch := decide) only [ResmokeExecutor.toFields, h, Option.map_some',
      Option.map_none', findKey_optField_some, findKey_optField_none,
      findKey_optField_ne, findKey_nil]

theorem exec_findKey_config (e : ResmokeExecutor) :
    findKey "config" e.toFields = e.config := by
  cases h : e.config <;>
    simp (disch := decide) only [ResmokeExecutor.toFields, h,
      findKey_optField_some, findKey_optField_none, findKey_optField_ne,
      findKey_nil]

theorem exec_findKey_fixture (e : ResmokeExecutor) :
    findKey "fixture" e.toFields = e.fixture := by
  cases h : e.fixture <;>
    simp (disch := decide) only [ResmokeExecutor.toFields, h,
      findKey_optField_some, findKey_optField_none, findKey_optField_ne,
      findKey_nil]

theorem top_findKey_matrix_suite (c : ResmokeSuiteConfig) :
    findKey "matrix_suite" c.topFields = c.matrix_suite.map Yaml.bool := by
  cases h : c.matrix_suite <;>
    simp (disch := decide) only [ResmokeSuiteConfig.topFields, h, Option.map_some',
      Option.map_none', findKey_optField_some, findKey_optField_none,
      findKey_optField_ne, findKey_cons_ne, findKey_nil]

theorem top_findKey_description (c : ResmokeSuiteConfig) :
    findKey "description" c.topFields = c.description.map Yaml.str := by
  cases h : c.description <;>
    simp (disch := decide) only [ResmokeSuiteConfig.topFields, h, Option.map_some',
      Option.map_none', findKey_optField_some, findKey_optField_none,
      findKey_optField_ne, findKey_cons_ne, findKey_nil]

theorem top_findKey_test_kind (c : ResmokeSuiteConfig) :
    findKey "test_kind" c.topFields = some (Yaml.str c.test_kind) := by
  simp (disch := decide) only [ResmokeSuiteConfig.topFields,
    findKey_optField_ne, findKey_cons_self]

theorem top_findKey_selector (c : ResmokeSuiteConfig) :
    findKey "selector" c.topFields = some (Yaml.map c.selector.toFields) := by
  simp (disch := decide) only [ResmokeSuiteConfig.topFields,
    findKey_optField_ne, findKey_cons_ne, findKey_cons_self]

theorem top_findKey_executor (c : ResmokeSuiteConfig) :
    findKey "executor" c.topFields = some (Yaml.map c.executor.toFields) := by
  simp (disch := decide) only [ResmokeSuiteConfig.topFields,
    findKey_optField_ne, findKey_cons_ne, findKey_cons_self]

/-! ### Decode round-trip helper lemmas -/

theorem except_bind_eq_ok {ε α β : Type} (x : Except ε α) (f : α → Except ε β)
    (b : β) :
    (x >>= f) = Except.ok b ↔ ∃ a, x = Except.ok a ∧ f a = Except.ok b := by
  cases x <;> simp [bind, Except.bind]

theorem decodeStrs_map_str (xs : List String) :
    decodeStrs (xs.map Yaml.str) = Except.ok xs := by
  induction xs with
  | nil => rfl
  | cons x xs ih => simp [decodeStrs, decodeStr, ih, bind, Except.bind]

theorem decodeStrList_strList (xs : List String) :
    decodeStrList (strList xs) = Except.ok xs := by
  simp [decodeStrList, strList, decodeStrs_map_str]

theorem parseTestRoot_toFields (s : ResmokeSelector) :
    parseTestRoot s.toFields = Except.ok s.test_root := by
  have hr := sel_findKey_root s
  have hrs := sel_findKey_roots s
  cases h : s.test_root with
  | none => simp only [h] at hr hrs; simp [parseTestRoot, hr, hrs, h]
  | some tr =>
      cases tr with
      | Root r => simp only [h] at hr hrs; simp [parseTestRoot, hr, hrs, h]
      | Roots rs =>
          simp only [h] at hr hrs
          simp [parseTestRoot, hr, hrs, h, decodeStrList_strList]

theorem parseSelector_toFields (s : ResmokeSelector) :
    parseSelector (Yaml.map s.toFields) = Except.ok s := by
  have h1 : optDecode decodeStr "exclude_tags" s.toFields =
      Except.ok s.exclude_tags := by
    cases h : s.exclude_tags <;>
      simp [optDecode, sel_findKey_exclude_tags, h, decodeStr, Except.map]
  have h2 : optDecode decodeStrList "exclude_files" s.toFields =
      Except.ok s.exclude_files := by
    cases h : s.exclude_files <;>
      simp [optDecode, sel_findKey_exclude_files, h, decodeStrList_strList, Except.map]
  have h3 : optDecode decodeStrList "exclude_with_any_tags" s.toFields =
      Except.ok s.exclude_with_any_tags := by
    cases h : s.exclude_with_any_tags <;>
      simp [optDecode, sel_findKey_exclude_with_any_tags, h, decodeStrList_strList,
        Except.map]
  have h4 : optDecode decodeNat "group_size" s.toFields =
      Except.ok s.group_size := by
    cases h : s.group_size <;>
      simp [optDecode, sel_findKey_group_size, h, decodeNat, Except.map]
  have h5 : optDecode decodeNum "group_count_multiplier" s.toFields =
      Except.ok s.group_count_multiplier := by
    cases h : s.group_count_multiplier <;>
      simp [optDecode, sel_findKey_group_count_multiplier, h, decodeNum, Except.map]
  have h6 : optDecode decodeStrList "include_with_any_tags" s.toFields =
      Except.ok s.include_with_any_tags := by
    cases h : s.include_with_any_tags <;>
      simp [optDecode, sel_findKey_include_with_any_tags, h, decodeStrList_strList,
        Except.map]
  have h7 : optDecode decodeStrList "include_files" s.toFields =
      Except.ok s.include_files := by
    cases h : s.include_files <;>
      simp [optDecode, sel_findKey_include_files, h, decodeStrList_strList, Except.map]
  have h8 : optDecode decodeStr "include_tags" s.toFields =
      Except.ok s.include_tags := by
    cases h : s.include_tags <;>
      simp [optDecode, sel_findKey_include_tags, h, decodeStr, Except.map]
  have h9 := parseTestRoot_toFields s
  have h10 : optDecode decodeStr "tag_file" s.toFields =
      Except.ok s.tag_file := by
    cases h : s.tag_file <;>
      simp [optDecode, sel_findKey_tag_file, h, decodeStr, Except.map]
  have h11 : optDecode decodeStr "test" s.toFields = Except.ok s.test := by
    cases h : s.test <;>
      simp [optDecode, sel_findKey_test, h, decodeStr, Except.map]
  simp [parseSelector, bind, Except.bind, h1, h2, h3, h4, h5, h6, h7, h8, h9,
    h10, h11]

theorem parseExecutor_toFields (e : ResmokeExecutor) :
    parseExecutor (Yaml.map e.toFields) = Except.ok e := by
  have hh : optDecode decodeSeq "hooks" e.toFields = Except.ok e.hooks := by
    cases h : e.hooks <;>
      simp [optDecode, exec_findKey_hooks, h, decodeSeq, Except.map]
  simp [parseExecutor, bind, Except.bind, hh, exec_findKey_archive,
    exec_findKey_config, exec_findKey_fixture]

/-! ### Claim theorems -/

/-- C2: in run mode (`exclude_tests` absent, `run_tests` provided) the derived
selector drops `exclude_files` entirely, sets `test_root` to `Roots run`
(replacing any prior value), and leaves every other selector field
unchanged. -/
theorem with_new_tests_run_mode (c : ResmokeSuiteConfig) (run : List String) :
    (c.with_new_tests (some run) none).selector.exclude_files = none ∧
    (c.with_new_tests (some run) none).selector.test_root =
      some (TestRoot.Roots run) ∧
    (c.with_new_tests (some run) none).selector.exclude_tags =
      c.selector.exclude_tags ∧
    (c.with_new_tests (some run) none).selector.exclude_with_any_tags =
      c.selector.exclude_with_any_tags ∧
    (c.with_new_tests (some run) none).selector.group_size =
      c.selector.group_size ∧
    (c.with_new_tests (some run) none).selector.group_count_multiplier =
      c.selector.group_count_multiplier ∧
    (c.with_new_tests (some run) none).selector.include_with_any_tags =
      c.selector.include_with_any_tags ∧
    (c.with_new_tests (some run) none).selector.include_files =
      c.selector.include_files ∧
    (c.with_new_tests (some run) none).selector.include_tags =
      c.selector.include_tags ∧
    (c.with_new_tests (some run) none).selector.tag_file =
      c.selector.tag_file ∧
    (c.with_new_tests (some run) none).selector.test = c.selector.test := by
  simp [ResmokeSuiteConfig.with_new_tests]

/-- C4: round-trip identity — parsing the serialized form of any suite
configuration succeeds and returns the configuration itself, field for field,
with optional-field presence and the `TestRoot` variant preserved. -/
theorem parse_serialize_roundtrip (c : ResmokeSuiteConfig) :
    ResmokeSuiteConfig.from_yaml c.toYaml = Except.ok c := by
  have hm : optDecode decodeBool "matrix_suite" c.topFields =
      Except.ok c.matrix_suite := by
    cases h : c.matrix_suite <;>
      simp [optDecode, top_findKey_matrix_suite, h, decodeBool, Except.map]
  have hd : optDecode decodeStr "description" c.topFields =
      Except.ok c.description := by
    cases h : c.description <;>
      simp [optDecode, top_findKey_description, h, decodeStr, Except.map]
  simp [ResmokeSuiteConfig.from_yaml, ResmokeSuiteConfig.toYaml, bind,
    Except.bind, hm, hd, reqKey, top_findKey_test_kind, top_findKey_selector,
    top_findKey_executor, decodeStr, parseSelector_toFields,
    parseExecutor_toFields]

/-- C5: frame condition of `with_new_tests` — the top-level fields other than
the selector are always unchanged; in exclude mode every selector field other
than `exclude_files` is unchanged; and when both inputs are absent the
returned selector is exactly the original. -/
theorem with_new_tests_frame (c : ResmokeSuiteConfig)
    (run ex : Option (List String)) (xs : List String) :
    ((c.with_new_tests run ex).matrix_suite = c.matrix_suite ∧
     (c.with_new_tests run ex).description = c.description ∧
     (c.with_new_tests run ex).test_kind = c.test_kind ∧
     (c.with_new_tests run ex).executor = c.executor) ∧
    ((c.with_new_tests run (some xs)).selector.exclude_tags =
        c.selector.exclude_tags ∧
     (c.with_new_tests run (some xs)).selector.exclude_with_any_tags =
        c.selector.exclude_with_any_tags ∧
     (c.with_new_tests run (some xs)).selector.group_size =
        c.selector.group_size ∧
     (c.with_new_tests run (some xs)).selector.group_count_multiplier =
        c.selector.group_count_multiplier ∧
     (c.with_new_tests run (some xs)).selector.include_with_any_tags =
        c.selector.include_with_any_tags ∧
     (c.with_new_tests run (some xs)).selector.include_files =
        c.selector.include_files ∧
     (c.with_new_tests run (some xs)).selector.include_tags =
        c.selector.include_tags ∧
     (c.with_new_tests run (some xs)).selector.test_root =
        c.selector.test_root ∧
     (c.with_new_tests run (some xs)).selector.tag_file =
        c.selector.tag_file ∧
     (c.with_new_tests run (some xs)).selector.test = c.selector.test) ∧
    (c.with_new_tests none none).selector = c.selector := by
  cases run <;> cases ex <;> simp [ResmokeSuiteConfig.with_new_tests]

theorem parseSelector_ok_test_root (fs : List (String × Yaml))
    (s : ResmokeSelector) (hp : parseSelector (Yaml.map fs) = Except.ok s) :
    parseTestRoot fs = Except.ok s.test_root := by
  simp only [parseSelector] at hp
  simp only [except_bind_eq_ok] at hp
  obtain ⟨v1, h1, v2, h2, v3, h3, v4, h4, v5, h5, v6, h6, v7, h7, v8, h8,
    tr, htr, v10, h10, v11, h11, hfin⟩ := hp
  injection hfin with h
  subst h
  exact htr

/-- C6: parsing malformed input — a document missing the required `test_kind`
key, or one whose `selector` is present but not a mapping — returns a parse
error and never an `ok` configuration (so a failure is always distinguishable
from a successful parse). -/
theorem from_yaml_malformed_errors :
    ResmokeSuiteConfig.from_yaml badDocMissingTestKind =
      Except.error ⟨"missing field test_kind"⟩ ∧
    ResmokeSuiteConfig.from_yaml badDocSelectorScalar =
      Except.error ⟨"selector: invalid type, expected a mapping"⟩ ∧
    (∀ c, ResmokeSuiteConfig.from_yaml badDocMissingTestKind ≠ Except.ok c) ∧
    (∀ c, ResmokeSuiteConfig.from_yaml badDocSelectorScalar ≠ Except.ok c) := by
  refine ⟨rfl, rfl, fun c h => ?_, fun c h => ?_⟩ <;> exact Except.noConfusion h

/-- C7: omission on serialization — every optional field that is unset emits
no key in the serialized document (for `test_root`, neither the `root` nor
the `roots` key). -/
theorem serialize_omits_unset_fields (c : ResmokeSuiteConfig) :
    (c.matrix_suite = none → findKey "matrix_suite" c.topFields = none) ∧
    (c.description = none → findKey "description" c.topFields = none) ∧
    (c.selector.exclude_tags = none →
      findKey "exclude_tags" c.selector.toFields = none) ∧
    (c.selector.exclude_files = none →
      findKey "exclude_files" c.selector.toFields = none) ∧
    (c.selector.exclude_with_any_tags = none →
      findKey "exclude_with_any_tags" c.selector.toFields = none) ∧
    (c.selector.group_size = none →
      findKey "group_size" c.selector.toFields = none) ∧
    (c.selector.group_count_multiplier = none →
      findKey "group_count_multiplier" c.selector.toFields = none) ∧
    (c.selector.include_with_any_tags = none →
      findKey "include_with_any_tags" c.selector.toFields = none) ∧
    (c.selector.include_files = none →
      findKey "include_files" c.selector.toFields = none) ∧
    (c.selector.include_tags = none →
      findKey "include_tags" c.selector.toFields = none) ∧
    (c.selector.test_root = none →
      (findKey "root" c.selector.toFields = none ∧
       findKey "roots" c.selector.toFields = none)) ∧
    (c.selector.tag_file = none →
      findKey "tag_file" c.selector.toFields = none) ∧
    (c.selector.test = none → findKey "test" c.selector.toFields = none) ∧
    (c.executor.archive = none →
      findKey "archive" c.executor.toFields = none) ∧
    (c.executor.hooks = none → findKey "hooks" c.executor.toFields = none) ∧
    (c.executor.config = none → findKey "config" c.executor.toFields = none) ∧
    (c.executor.fixture = none →
      findKey "fixture" c.executor.toFields = none) :=
  ⟨fun h => by simp [top_findKey_matrix_suite, h],
   fun h => by simp [top_findKey_description, h],
   fun h => by simp [sel_findKey_exclude_tags, h],
   fun h => by simp [sel_findKey_exclude_files, h],
   fun h => by simp [sel_findKey_exclude_with_any_tags, h],
   fun h => by simp [sel_findKey_group_size, h],
   fun h => by simp [sel_findKey_group_count_multiplier, h],
   fun h => by simp [sel_findKey_include_with_any_tags, h],
   fun h => by simp [sel_findKey_include_files, h],
   fun h => by simp [sel_findKey_include_tags, h],
   fun h => ⟨by simp [sel_findKey_root, h], by simp [sel_findKey_roots, h]⟩,
   fun h => by simp [sel_findKey_tag_file, h],
   fun h => by simp [sel_findKey_test, h],
   fun h => by simp [exec_findKey_archive, h],
   fun h => by simp [exec_findKey_hooks, h],
   fun h => by simp [exec_findKey_config, h],
   fun h => by simp [exec_findKey_fixture, h]⟩

/-- Witness for C7 at a concrete configuration with every optional field
unset. -/
theorem serialize_omits_unset_fields_witness :
    findKey "matrix_suite" sampleConfig.topFields = none ∧
    findKey "description" sampleConfig.topFields = none ∧
    findKey "exclude_tags" sampleConfig.selector.toFields = none ∧
    findKey "exclude_files" sampleConfig.selector.toFields = none ∧
    findKey "exclude_with_any_tags" sampleConfig.selector.toFields = none ∧
    findKey "group_size" sampleConfig.selector.toFields = none ∧
    findKey "group_count_multiplier" sampleConfig.selector.toFields = none ∧
    findKey "include_with_any_tags" sampleConfig.selector.toFields = none ∧
    findKey "include_files" sampleConfig.selector.toFields = none ∧
    findKey "include_tags" sampleConfig.selector.toFields = none ∧
    (findKey "root" sampleConfig.selector.toFields = none ∧
     findKey "roots" sampleConfig.selector.toFields = none) ∧
    findKey "tag_file" sampleConfig.selector.toFields = none ∧
    findKey "test" sampleConfig.selector.toFields = none ∧
    findKey "archive" sampleConfig.executor.toFields = none ∧
    findKey "hooks" sampleConfig.executor.toFields = none ∧
    findKey "config" sampleConfig.executor.toFields = none ∧
    findKey "fixture" sampleConfig.executor.toFields = none := by
  obtain ⟨h1, h2, h3, h4, h5, h6, h7, h8, h9, h10, h11, h12, h13, h14, h15,
    h16, h17⟩ := serialize_omits_unset_fields sampleConfig
  exact ⟨h1 rfl, h2 rfl, h3 rfl, h4 rfl, h5 rfl, h6 rfl, h7 rfl, h8 rfl,
    h9 rfl, h10 rfl, h11 rfl, h12 rfl, h13 rfl, h14 rfl, h15 rfl, h16 rfl,
    h17 rfl⟩

/-- C8: `TestRoot` exclusivity — a parsed `test_root` never carries both the
`root` and the `roots` key in its serialized form, and a selector document
containing neither key parses to an absent `test_root`. -/
theorem parseTestRoot_exclusive (fs : List (String × Yaml)) :
    (∀ tr, parseTestRoot fs = Except.ok (some tr) →
      ¬((findKey "root" (TestRoot.toFields tr)).isSome = true ∧
        (findKey "roots" (TestRoot.toFields tr)).isSome = true)) ∧
    (findKey "root" fs = none → findKey "roots" fs = none →
      parseTestRoot fs = Except.ok none) ∧
    (∀ s, findKey "root" fs = none → findKey "roots" fs = none →
      parseSelector (Yaml.map fs) = Except.ok s → s.test_root = none) := by
  refine ⟨fun tr _ hc => ?_, fun h1 h2 => ?_, fun s h1 h2 hp => ?_⟩
  · cases tr <;> simp [TestRoot.toFields, findKey] at hc
  · simp [parseTestRoot, h1, h2]
  · have h3 := parseSelector_ok_test_root fs s hp
    have h4 : parseTestRoot fs = Except.ok none := by
      simp [parseTestRoot, h1, h2]
    rw [h3] at h4
    injection h4

/-- Witness for C8 at concrete documents: a parsed `Root` variant, the empty
selector document, and the empty selector document's full parse. -/
theorem parseTestRoot_exclusive_witness :
    (¬((findKey "root"
          (TestRoot.toFields (TestRoot.Root "jstests/a.js"))).isSome = true ∧
       (findKey "roots"
          (TestRoot.toFields (TestRoot.Root "jstests/a.js"))).isSome = true)) ∧
    parseTestRoot [] = Except.ok none ∧
    sampleConfig.selector.test_root = none :=
  ⟨(parseTestRoot_exclusive [("root", Yaml.str "jstests/a.js")]).1
      (TestRoot.Root "jstests/a.js") rfl,
   (parseTestRoot_exclusive []).2.1 rfl rfl,
   (parseTestRoot_exclusive []).2.2 sampleConfig.selector rfl rfl rfl⟩

/-- C9: serialization always succeeds (the `unwrap` in
`ResmokeSuiteConfig::to_string` cannot panic) for any configuration obtained
from a successful parse, and for any configuration derived from it with
`with_new_tests`. -/
theorem serialize_total_on_model_values (y : Yaml) (c : ResmokeSuiteConfig)
    (run ex : Option (List String))
    (_h : ResmokeSuiteConfig.from_yaml y = Except.ok c) :
    c.serializeResult = Except.ok c.toYaml ∧
    (c.with_new_tests run ex).serializeResult =
      Except.ok (c.with_new_tests run ex).toYaml ∧
    (∀ e : ParseError, c.serializeResult ≠ Except.error e) ∧
    (∀ e : ParseError,
      (c.with_new_tests run ex).serializeResult ≠ Except.error e) :=
  ⟨rfl, rfl, fun _ he => Except.noConfusion he, fun _ he => Except.noConfusion he⟩

/-- Witness for C9 at the serialized form of the concrete sample
configuration. -/
theorem serialize_total_on_model_values_witness :
    sampleConfig.serializeResult = Except.ok sampleConfig.toYaml ∧
    (sampleConfig.with_new_tests none none).serializeResult =
      Except.ok (sampleConfig.with_new_tests none none).toYaml ∧
    (∀ e : ParseError, sampleConfig.serializeResult ≠ Except.error e) ∧
    (∀ e : ParseError,
      (sampleConfig.with_new_tests none none).serializeResult ≠
        Except.error e) :=
  serialize_total_on_model_values sampleConfig.toYaml sampleConfig none none rfl

/-- C10: in exclude mode the derived selector's `exclude_files` is always
present; in particular, a configuration whose `exclude_files` was absent gets
a present empty list when the exclude list is empty, and that field is then
emitted on serialization. -/
theorem with_new_tests_exclude_files_always_present (c : ResmokeSuiteConfig)
    (run : Option (List String)) (ex : List String) :
    ((c.with_new_tests run (some ex)).selector.exclude_files).isSome = true ∧
    (c.selector.exclude_files = none →
      ((c.with_new_tests run (some [])).selector.exclude_files = some [] ∧
       findKey "exclude_files"
         ((c.with_new_tests run (some [])).selector.toFields) =
           some (strList []))) := by
  constructor
  · cases h : c.selector.exclude_files <;>
      simp [ResmokeSuiteConfig.with_new_tests, h]
  · intro h
    have hres : (c.with_new_tests run (some [])).selector.exclude_files =
        some [] := by
      simp [ResmokeSuiteConfig.with_new_tests, h]
    exact ⟨hres, by simp [sel_findKey_exclude_files, hres]⟩

/-- Witness for C10 at the concrete sample configuration (whose
`exclude_files` is absent). -/
theorem with_new_tests_exclude_files_always_present_witness :
    ((sampleConfig.with_new_tests none
        (some ["a.js"])).selector.exclude_files).isSome = true ∧
    ((sampleConfig.with_new_tests none (some [])).selector.exclude_files =
        some [] ∧
     findKey "exclude_files"
       ((sampleConfig.with_new_tests none (some [])).selector.toFields) =
         some (strList [])) :=
  ⟨(with_new_tests_exclude_files_always_present sampleConfig none ["a.js"]).1,
   (with_new_tests_exclude_files_always_present sampleConfig none []).2 rfl⟩
